import Mathlib

/-!
Verification of the sandboxed code-execution subsystem, centred on
`PHPExecutor.execute` (src/src/execute/php-executor.ts).

The helper functions it imports (`getUniqueFileName`, `createTempFile`,
`cleanupFile`, `spawnHelper` from `./utils`, the resource-limit constants
from `../../constants`, and the `Executor` interface types from
`./executor`) are not part of the given sources; they are modelled as an
abstract environment (`Env`, `Constants`) whose behaviour the theorems
quantify over, and as record types following the data model of the spec.
-/

/-- Modelled from the spec: `ExecutionRequest` / `ExecutionOptions` from the
missing `./executor` module — `{ code : string, stdin : string }`. -/
structure ExecutionOptions where
  code : String
  stdin : String
deriving DecidableEq, Repr

/-- Modelled from the spec: `ExecutionResult` from the missing `./executor`
module — `{ stdout : string, stderr : string }`. -/
structure ExecutionResult where
  stdout : String
  stderr : String
deriving DecidableEq, Repr

/-- Modelled from the spec: the result shape of the missing `spawnHelper`
(`./utils`) — captured stdout, stderr and the terminal exit status of the
process. -/
structure SpawnResult where
  stdout : String
  stderr : String
  code : Int
deriving DecidableEq, Repr

/-- A JavaScript value appearing in the docker argument array: the array is
typed `string[]`, but the image entry is `process.env.PHP_IMAGE_TAG!`, which
is `undefined` at runtime when the variable is unset (the `!` is a
compile-time non-null assertion with no runtime check). -/
inductive JSVal where
  | undefined : JSVal
  | str : String → JSVal
deriving DecidableEq, Repr

/-- Coercion of an optional environment-variable lookup into the JavaScript
value it denotes: a missing variable reads as `undefined`. -/
def jsOfOption : Option String → JSVal
  | none => JSVal.undefined
  | some s => JSVal.str s

/-- Modelled from the spec: the command spec handed to the missing
`spawnHelper` — `{ command: "docker", args: dockerArgs }`. -/
structure CommandSpec where
  command : String
  args : List JSVal
deriving DecidableEq, Repr

/-- Modelled from the spec: `ResourceLimits` from the missing
`../../constants` module — process-wide CPU-time and memory ceilings,
constant across executions. -/
structure Constants where
  EXECUTION_TIME_LIMIT : Nat
  EXECUTION_MEMORY_LIMIT : Nat
deriving DecidableEq, Repr

/-- Modelled from the spec: the behaviour of the missing `./utils` helpers
during one call to `execute`, as a deterministic oracle.
`uniqueFileName` is the value returned by `getUniqueFileName()`;
`createTempFile name content` either fails (the write throws) or returns the
path of the file now holding `content`; `spawnHelper spec stdin` either
fails (the launch throws) or returns the captured `{stdout, stderr, code}`;
`cleanupFile path` either fails (removal throws) or succeeds. -/
structure Env where
  uniqueFileName : String
  createTempFile : String → String → Except String String
  spawnHelper : CommandSpec → String → Except String SpawnResult
  cleanupFile : String → Except String Unit

/-- The module-level state of `php-executor.ts`: line 10 reads
`process.env.PHP_IMAGE_TAG!` once when the module loads. -/
structure ModuleState where
  PHP_IMAGE_TAG : JSVal
deriving DecidableEq, Repr

/-- Module initialisation (line 10): capture `process.env.PHP_IMAGE_TAG`
under the `!` assertion. The assertion has no runtime effect, so this is a
total function — an unset variable is captured as `undefined`, no error. -/
def initModule (procEnv : String → Option String) : ModuleState :=
  { PHP_IMAGE_TAG := jsOfOption (procEnv "PHP_IMAGE_TAG") }

/-- Observable actions performed by one call to `execute`, in order.
`cleanupAttempted path ok` records the `try { await cleanupFile } catch`
block: `ok = false` means the removal threw and the error was logged via
`console.error` (and nothing was propagated). -/
inductive Event where
  | tempFileCreated : String → String → String → Event
  | spawnAttempted : String → List JSVal → String → Event
  | cleanupAttempted : String → Bool → Event
deriving DecidableEq, Repr

instance {ε α : Type} [DecidableEq ε] [DecidableEq α] : DecidableEq (Except ε α) :=
  fun a b =>
  match a, b with
  | Except.error e, Except.error f =>
    if h : e = f then isTrue (by rw [h])
    else isFalse (fun hh => h (Except.error.inj hh))
  | Except.ok x, Except.ok y =>
    if h : x = y then isTrue (by rw [h])
    else isFalse (fun hh => h (Except.ok.inj hh))
  | Except.error _, Except.ok _ => isFalse (fun hh => Except.noConfusion hh)
  | Except.ok _, Except.error _ => isFalse (fun hh => Except.noConfusion hh)

/-- Outcome of a call to `execute`: how the returned promise resolves
(`.ok` a result, `.error` a propagated exception) together with the trace
of observable actions. -/
structure ExecOutcome where
  result : Except String ExecutionResult
  events : List Event
deriving DecidableEq, Repr

/-- Lines 18–27 of php-executor.ts: the docker argument array. -/
def dockerArgs (cs : Constants) (PHP_IMAGE_TAG : JSVal) (tempFilePath : String) :
    List JSVal :=
  [ JSVal.str "run",
    JSVal.str "-i",
    JSVal.str "--rm",
    JSVal.str "--ulimit", JSVal.str ("cpu=" ++ toString cs.EXECUTION_TIME_LIMIT),
    JSVal.str "--memory", JSVal.str (toString cs.EXECUTION_MEMORY_LIMIT ++ "m"),
    JSVal.str "--mount",
    JSVal.str ("type=bind,source=" ++ tempFilePath ++ ",target=/code.php,readonly"),
    PHP_IMAGE_TAG,
    JSVal.str "php", JSVal.str "/code.php" ]

/-- Line 36 of php-executor.ts. -/
def FORCED_DOCKER_EXIT_CODE : Int := 137

/-- Line 38 of php-executor.ts: the diagnostic appended to stderr. -/
def forcedExitNote : String :=
  "process exited with code 137. Most likely due to exceeding memory or CPU time limit."

/-- Lines 13–47 of php-executor.ts, `PHPExecutor.execute`:
generate the file name, create the temp file (a throw propagates at once),
build the docker arguments, spawn (a throw propagates with no cleanup),
append the 137 diagnostic when the exit code matches, attempt cleanup with
the failure caught and logged, and return `{stdout, stderr}`. -/
def PHPExecutor.execute (cs : Constants) (st : ModuleState) (env : Env)
    (options : ExecutionOptions) : ExecOutcome :=
  let uniqueId := env.uniqueFileName
  let tempFileName := uniqueId ++ ".php"
  match env.createTempFile tempFileName options.code with
  | Except.error e => { result := Except.error e, events := [] }
  | Except.ok tempFilePath =>
    let args := dockerArgs cs st.PHP_IMAGE_TAG tempFilePath
    let ev := [Event.tempFileCreated tempFileName options.code tempFilePath,
               Event.spawnAttempted "docker" args options.stdin]
    match env.spawnHelper { command := "docker", args := args } options.stdin with
    | Except.error e => { result := Except.error e, events := ev }
    | Except.ok r =>
      let stderr := if r.code = FORCED_DOCKER_EXIT_CODE
                    then r.stderr ++ forcedExitNote
                    else r.stderr
      match env.cleanupFile tempFilePath with
      | Except.error _ =>
        { result := Except.ok { stdout := r.stdout, stderr := stderr },
          events := ev ++ [Event.cleanupAttempted tempFilePath false] }
      | Except.ok _ =>
        { result := Except.ok { stdout := r.stdout, stderr := stderr },
          events := ev ++ [Event.cleanupAttempted tempFilePath true] }

/-- Paths of temp files created during a trace. -/
def filesCreated (evs : List Event) : List String :=
  evs.filterMap fun e =>
    match e with
    | Event.tempFileCreated _ _ path => some path
    | _ => none

/-- Paths whose removal succeeded during a trace. -/
def filesRemoved (evs : List Event) : List String :=
  evs.filterMap fun e =>
    match e with
    | Event.cleanupAttempted path true => some path
    | _ => none

/-- Temp files a call leaves behind: created and never successfully
removed. -/
def filesRemaining (evs : List Event) : List String :=
  (filesCreated evs).filter fun p => p ∉ filesRemoved evs

/-- Whether a cleanup attempt succeeded. -/
def cleanupOk (e : Except String Unit) : Bool :=
  match e with
  | Except.ok _ => true
  | Except.error _ => false

/-- Shared unfolding lemma: when temp-file creation and the spawn both
succeed, `execute` returns the normalized result and its trace is exactly
create, spawn, cleanup-attempt. -/
theorem execute_spawn_ok_eq (cs : Constants) (st : ModuleState) (env : Env)
    (opts : ExecutionOptions) (p : String) (r : SpawnResult)
    (h1 : env.createTempFile (env.uniqueFileName ++ ".php") opts.code = Except.ok p)
    (h2 : env.spawnHelper { command := "docker", args := dockerArgs cs st.PHP_IMAGE_TAG p }
            opts.stdin = Except.ok r) :
    PHPExecutor.execute cs st env opts =
      { result := Except.ok
          { stdout := r.stdout,
            stderr := if r.code = FORCED_DOCKER_EXIT_CODE
                      then r.stderr ++ forcedExitNote
                      else r.stderr },
        events := [Event.tempFileCreated (env.uniqueFileName ++ ".php") opts.code p,
                   Event.spawnAttempted "docker" (dockerArgs cs st.PHP_IMAGE_TAG p) opts.stdin,
                   Event.cleanupAttempted p (cleanupOk (env.cleanupFile p))] } := by
  cases hc : env.cleanupFile p with
  | ok u => simp [PHPExecutor.execute, h1, h2, hc, cleanupOk]
  | error e => simp [PHPExecutor.execute, h1, h2, hc, cleanupOk]

/-- Shared unfolding lemma: when temp-file creation succeeds but the spawn
throws, `execute` propagates the error and the trace stops after the spawn
attempt — no cleanup happens. -/
theorem execute_spawn_error_eq (cs : Constants) (st : ModuleState) (env : Env)
    (opts : ExecutionOptions) (p : String) (e : String)
    (h1 : env.createTempFile (env.uniqueFileName ++ ".php") opts.code = Except.ok p)
    (h2 : env.spawnHelper { command := "docker", args := dockerArgs cs st.PHP_IMAGE_TAG p }
            opts.stdin = Except.error e) :
    PHPExecutor.execute cs st env opts =
      { result := Except.error e,
        events := [Event.tempFileCreated (env.uniqueFileName ++ ".php") opts.code p,
                   Event.spawnAttempted "docker" (dockerArgs cs st.PHP_IMAGE_TAG p)
                     opts.stdin] } := by
  simp [PHPExecutor.execute, h1, h2]

/-- Shared unfolding lemma: when temp-file creation throws, `execute`
propagates the error with an empty trace. -/
theorem execute_create_error_eq (cs : Constants) (st : ModuleState) (env : Env)
    (opts : ExecutionOptions) (e : String)
    (h1 : env.createTempFile (env.uniqueFileName ++ ".php") opts.code = Except.error e) :
    PHPExecutor.execute cs st env opts = { result := Except.error e, events := [] } := by
  simp [PHPExecutor.execute, h1]

/-- Concrete resource limits for witnesses: 2 CPU seconds, 512 MB. -/
def cs0 : Constants := { EXECUTION_TIME_LIMIT := 2, EXECUTION_MEMORY_LIMIT := 512 }

/-- Concrete module state for witnesses: the image tag was set. -/
def st0 : ModuleState := { PHP_IMAGE_TAG := JSVal.str "php:8.2" }

/-- Concrete request for witnesses. -/
def opts0 : ExecutionOptions := { code := "<?php echo 1;", stdin := "" }

/-- A run in which every helper succeeds. -/
def envOk : Env :=
  { uniqueFileName := "u123",
    createTempFile := fun _ _ => Except.ok "/tmp/u123.php",
    spawnHelper := fun _ _ => Except.ok { stdout := "1", stderr := "", code := 0 },
    cleanupFile := fun _ => Except.ok () }

/-- A run in which the spawn step throws. -/
def envSpawnFails : Env :=
  { envOk with spawnHelper := fun _ _ => Except.error "spawn docker ENOENT" }

/-- A run in which temp-file creation throws. -/
def envCreateFails : Env :=
  { envOk with createTempFile := fun _ _ => Except.error "ENOSPC disk full" }

/-- A run in which cleanup throws. -/
def envCleanupFails : Env :=
  { envOk with cleanupFile := fun _ => Except.error "EACCES" }

/-- C1 (counterexample): there is an exit path of `PHPExecutor.execute` —
the process-launch step throwing — on which the temp file created for the
execution is NOT removed: the call propagates the spawn error, the trace
shows the file was created, no cleanup was attempted, and the file
remains. -/
theorem C1_counterexample :
    PHPExecutor.execute cs0 st0 envSpawnFails opts0 =
      { result := Except.error "spawn docker ENOENT",
        events := [Event.tempFileCreated "u123.php" "<?php echo 1;" "/tmp/u123.php",
                   Event.spawnAttempted "docker"
                     (dockerArgs cs0 (JSVal.str "php:8.2") "/tmp/u123.php") ""] } ∧
    filesRemaining (PHPExecutor.execute cs0 st0 envSpawnFails opts0).events =
      ["/tmp/u123.php"] := by
  exact ⟨rfl, rfl⟩

/-- C1 (amended): on every exit path on which the process-launch step
returns — normal return and the forced-termination/timeout exit code alike —
`PHPExecutor.execute` attempts removal of the temp file, and when the
removal succeeds no temp file created by the call remains; when the
process-launch step throws, the error propagates and the file is not
removed. -/
theorem C1_cleanup_when_spawn_returns (cs : Constants) (st : ModuleState)
    (env : Env) (opts : ExecutionOptions) (p : String) (r : SpawnResult)
    (h1 : env.createTempFile (env.uniqueFileName ++ ".php") opts.code = Except.ok p)
    (h2 : env.spawnHelper { command := "docker", args := dockerArgs cs st.PHP_IMAGE_TAG p }
            opts.stdin = Except.ok r) :
    Event.cleanupAttempted p (cleanupOk (env.cleanupFile p)) ∈
      (PHPExecutor.execute cs st env opts).events ∧
    (cleanupOk (env.cleanupFile p) = true →
      filesRemaining (PHPExecutor.execute cs st env opts).events = []) := by
  rw [execute_spawn_ok_eq cs st env opts p r h1 h2]
  refine ⟨by simp, ?_⟩
  intro h
  simp [filesRemaining, filesCreated, filesRemoved, h]

/-- C1 (witness). -/
theorem C1_witness :
    envOk.createTempFile (envOk.uniqueFileName ++ ".php") opts0.code =
      Except.ok "/tmp/u123.php" ∧
    envOk.spawnHelper
      { command := "docker", args := dockerArgs cs0 st0.PHP_IMAGE_TAG "/tmp/u123.php" }
      opts0.stdin = Except.ok { stdout := "1", stderr := "", code := 0 } ∧
    (Event.cleanupAttempted "/tmp/u123.php" true ∈
       (PHPExecutor.execute cs0 st0 envOk opts0).events ∧
     (true = true →
       filesRemaining (PHPExecutor.execute cs0 st0 envOk opts0).events = [])) :=
  ⟨rfl, rfl,
   C1_cleanup_when_spawn_returns cs0 st0 envOk opts0 "/tmp/u123.php"
     { stdout := "1", stderr := "", code := 0 } rfl rfl⟩

/-- C2 (counterexample): a temp-file write failure is propagated raw to the
caller — `PHPExecutor.execute` resolves to an error, not to an
`ExecutionResult` with a diagnostic stderr. -/
theorem C2_counterexample :
    (PHPExecutor.execute cs0 st0 envCreateFails opts0).result =
      Except.error "ENOSPC disk full" := by
  exact rfl

/-- C2 (amended): whenever the temp-file write and the process launch
succeed, `PHPExecutor.execute` returns an `ExecutionResult` `{stdout,
stderr}` for every spawn outcome — the user program failing (any exit code,
any stderr) is never propagated as an error; infrastructure failures
(temp-file write, process launch), however, do propagate. -/
theorem C2_user_failure_never_propagated (cs : Constants) (st : ModuleState)
    (env : Env) (opts : ExecutionOptions) (p : String) (r : SpawnResult)
    (h1 : env.createTempFile (env.uniqueFileName ++ ".php") opts.code = Except.ok p)
    (h2 : env.spawnHelper { command := "docker", args := dockerArgs cs st.PHP_IMAGE_TAG p }
            opts.stdin = Except.ok r) :
    (PHPExecutor.execute cs st env opts).result =
      Except.ok
        { stdout := r.stdout,
          stderr := if r.code = FORCED_DOCKER_EXIT_CODE
                    then r.stderr ++ forcedExitNote
                    else r.stderr } := by
  rw [execute_spawn_ok_eq cs st env opts p r h1 h2]

/-- C2 (witness). -/
theorem C2_witness :
    envOk.createTempFile (envOk.uniqueFileName ++ ".php") opts0.code =
      Except.ok "/tmp/u123.php" ∧
    envOk.spawnHelper
      { command := "docker", args := dockerArgs cs0 st0.PHP_IMAGE_TAG "/tmp/u123.php" }
      opts0.stdin = Except.ok { stdout := "1", stderr := "", code := 0 } ∧
    (PHPExecutor.execute cs0 st0 envOk opts0).result =
      Except.ok { stdout := "1", stderr := "" } :=
  ⟨rfl, rfl,
   C2_user_failure_never_propagated cs0 st0 envOk opts0 "/tmp/u123.php"
     { stdout := "1", stderr := "", code := 0 } rfl rfl⟩

/-- A run whose spawned process exits with the forced-termination code. -/
def env137 : Env :=
  { envOk with spawnHelper := fun _ _ =>
      Except.ok { stdout := "", stderr := "PHP Fatal error", code := 137 } }

/-- C3: for every `(exitCode, stderr)` the process-launch step returns, if
the exit code is 137 the stderr of the returned result is the raw stderr
with the diagnostic note appended (so the raw stderr is a prefix of it);
for every other exit code the returned stderr equals the raw stderr
unchanged. -/
theorem C3_result_normalizer (cs : Constants) (st : ModuleState) (env : Env)
    (opts : ExecutionOptions) (p : String) (r : SpawnResult)
    (h1 : env.createTempFile (env.uniqueFileName ++ ".php") opts.code = Except.ok p)
    (h2 : env.spawnHelper { command := "docker", args := dockerArgs cs st.PHP_IMAGE_TAG p }
            opts.stdin = Except.ok r) :
    ∃ res : ExecutionResult,
      (PHPExecutor.execute cs st env opts).result = Except.ok res ∧
      (r.code = 137 →
        res.stderr = r.stderr ++ forcedExitNote ∧ ∃ t, res.stderr = r.stderr ++ t) ∧
      (r.code ≠ 137 → res.stderr = r.stderr) := by
  rw [execute_spawn_ok_eq cs st env opts p r h1 h2]
  refine ⟨_, rfl, ?_, ?_⟩
  · intro h
    constructor
    · simp [FORCED_DOCKER_EXIT_CODE, h]
    · exact ⟨forcedExitNote, by simp [FORCED_DOCKER_EXIT_CODE, h]⟩
  · intro h
    simp only [FORCED_DOCKER_EXIT_CODE, if_neg h]

/-- C3 (witness). -/
theorem C3_witness :
    env137.createTempFile (env137.uniqueFileName ++ ".php") opts0.code =
      Except.ok "/tmp/u123.php" ∧
    env137.spawnHelper
      { command := "docker", args := dockerArgs cs0 st0.PHP_IMAGE_TAG "/tmp/u123.php" }
      opts0.stdin =
      Except.ok { stdout := "", stderr := "PHP Fatal error", code := 137 } ∧
    (∃ res : ExecutionResult,
      (PHPExecutor.execute cs0 st0 env137 opts0).result = Except.ok res ∧
      ((137 : Int) = 137 →
        res.stderr = "PHP Fatal error" ++ forcedExitNote ∧
        ∃ t, res.stderr = "PHP Fatal error" ++ t) ∧
      ((137 : Int) ≠ 137 → res.stderr = "PHP Fatal error")) :=
  ⟨rfl, rfl,
   C3_result_normalizer cs0 st0 env137 opts0 "/tmp/u123.php"
     { stdout := "", stderr := "PHP Fatal error", code := 137 } rfl rfl⟩

/-- C4: for every execution request whose temp file was written at path
`p`, the command handed to the process-launch helper is a docker invocation
that forwards stdin (`-i`, and the stdin of the request is passed along),
auto-removes the container (`--rm`), sets a CPU-time ulimit equal to the
configured ceiling, sets the memory limit to the configured ceiling in
megabytes, bind-mounts `p` read-only at the fixed path `/code.php`, selects
the PHP image, and invokes `php` against that fixed path. -/
theorem C4_invocation_shape (cs : Constants) (st : ModuleState) (env : Env)
    (opts : ExecutionOptions) (tag : String) (p : String)
    (h0 : st.PHP_IMAGE_TAG = JSVal.str tag)
    (h1 : env.createTempFile (env.uniqueFileName ++ ".php") opts.code = Except.ok p) :
    Event.spawnAttempted "docker"
      [JSVal.str "run", JSVal.str "-i", JSVal.str "--rm",
       JSVal.str "--ulimit", JSVal.str ("cpu=" ++ toString cs.EXECUTION_TIME_LIMIT),
       JSVal.str "--memory", JSVal.str (toString cs.EXECUTION_MEMORY_LIMIT ++ "m"),
       JSVal.str "--mount",
       JSVal.str ("type=bind,source=" ++ p ++ ",target=/code.php,readonly"),
       JSVal.str tag, JSVal.str "php", JSVal.str "/code.php"] opts.stdin ∈
      (PHPExecutor.execute cs st env opts).events := by
  have harg : [JSVal.str "run", JSVal.str "-i", JSVal.str "--rm",
       JSVal.str "--ulimit", JSVal.str ("cpu=" ++ toString cs.EXECUTION_TIME_LIMIT),
       JSVal.str "--memory", JSVal.str (toString cs.EXECUTION_MEMORY_LIMIT ++ "m"),
       JSVal.str "--mount",
       JSVal.str ("type=bind,source=" ++ p ++ ",target=/code.php,readonly"),
       JSVal.str tag, JSVal.str "php", JSVal.str "/code.php"] =
      dockerArgs cs st.PHP_IMAGE_TAG p := by
    rw [h0]
    rfl
  rw [harg]
  cases h2 : env.spawnHelper { command := "docker", args := dockerArgs cs st.PHP_IMAGE_TAG p }
      opts.stdin with
  | ok r =>
    rw [execute_spawn_ok_eq cs st env opts p r h1 h2]
    simp
  | error e =>
    rw [execute_spawn_error_eq cs st env opts p e h1 h2]
    simp

/-- C4 (witness). -/
theorem C4_witness :
    st0.PHP_IMAGE_TAG = JSVal.str "php:8.2" ∧
    envOk.createTempFile (envOk.uniqueFileName ++ ".php") opts0.code =
      Except.ok "/tmp/u123.php" ∧
    Event.spawnAttempted "docker"
      [JSVal.str "run", JSVal.str "-i", JSVal.str "--rm",
       JSVal.str "--ulimit", JSVal.str ("cpu=" ++ toString cs0.EXECUTION_TIME_LIMIT),
       JSVal.str "--memory", JSVal.str (toString cs0.EXECUTION_MEMORY_LIMIT ++ "m"),
       JSVal.str "--mount",
       JSVal.str ("type=bind,source=" ++ "/tmp/u123.php" ++ ",target=/code.php,readonly"),
       JSVal.str "php:8.2", JSVal.str "php", JSVal.str "/code.php"] opts0.stdin ∈
      (PHPExecutor.execute cs0 st0 envOk opts0).events :=
  ⟨rfl, rfl,
   C4_invocation_shape cs0 st0 envOk opts0 "php:8.2" "/tmp/u123.php" rfl rfl⟩

/-- C5: when removing the temp file throws, `PHPExecutor.execute` catches
the error (the trace records the failed attempt, which is where the
`console.error` log happens), does not propagate it, and returns exactly
the same `{stdout, stderr}` result it would have returned had cleanup
succeeded — witnessed by a second run identical except that its cleanup
succeeds. -/
theorem C5_cleanup_failure_not_propagated (cs : Constants) (st : ModuleState)
    (envA envB : Env) (opts : ExecutionOptions) (p : String) (r : SpawnResult)
    (err : String)
    (hu : envA.uniqueFileName = envB.uniqueFileName)
    (hc : envA.createTempFile = envB.createTempFile)
    (hs : envA.spawnHelper = envB.spawnHelper)
    (h1 : envA.createTempFile (envA.uniqueFileName ++ ".php") opts.code = Except.ok p)
    (h2 : envA.spawnHelper { command := "docker", args := dockerArgs cs st.PHP_IMAGE_TAG p }
            opts.stdin = Except.ok r)
    (hfail : envA.cleanupFile p = Except.error err)
    (hok : envB.cleanupFile p = Except.ok ()) :
    (∃ res : ExecutionResult,
       (PHPExecutor.execute cs st envA opts).result = Except.ok res) ∧
    (PHPExecutor.execute cs st envA opts).result =
      (PHPExecutor.execute cs st envB opts).result ∧
    Event.cleanupAttempted p false ∈ (PHPExecutor.execute cs st envA opts).events := by
  have h1B : envB.createTempFile (envB.uniqueFileName ++ ".php") opts.code = Except.ok p := by
    rw [← hu, ← hc]
    exact h1
  have h2B : envB.spawnHelper
      { command := "docker", args := dockerArgs cs st.PHP_IMAGE_TAG p } opts.stdin =
      Except.ok r := by
    rw [← hs]
    exact h2
  rw [execute_spawn_ok_eq cs st envA opts p r h1 h2,
      execute_spawn_ok_eq cs st envB opts p r h1B h2B]
  refine ⟨⟨_, rfl⟩, rfl, ?_⟩
  simp [cleanupOk, hfail]

/-- C5 (witness). -/
theorem C5_witness :
    envCleanupFails.uniqueFileName = envOk.uniqueFileName ∧
    envCleanupFails.createTempFile = envOk.createTempFile ∧
    envCleanupFails.spawnHelper = envOk.spawnHelper ∧
    envCleanupFails.createTempFile (envCleanupFails.uniqueFileName ++ ".php") opts0.code =
      Except.ok "/tmp/u123.php" ∧
    envCleanupFails.spawnHelper
      { command := "docker", args := dockerArgs cs0 st0.PHP_IMAGE_TAG "/tmp/u123.php" }
      opts0.stdin = Except.ok { stdout := "1", stderr := "", code := 0 } ∧
    envCleanupFails.cleanupFile "/tmp/u123.php" = Except.error "EACCES" ∧
    envOk.cleanupFile "/tmp/u123.php" = Except.ok () ∧
    ((∃ res : ExecutionResult,
       (PHPExecutor.execute cs0 st0 envCleanupFails opts0).result = Except.ok res) ∧
     (PHPExecutor.execute cs0 st0 envCleanupFails opts0).result =
       (PHPExecutor.execute cs0 st0 envOk opts0).result ∧
     Event.cleanupAttempted "/tmp/u123.php" false ∈
       (PHPExecutor.execute cs0 st0 envCleanupFails opts0).events) :=
  ⟨rfl, rfl, rfl, rfl, rfl, rfl, rfl,
   C5_cleanup_failure_not_propagated cs0 st0 envCleanupFails envOk opts0
     "/tmp/u123.php" { stdout := "1", stderr := "", code := 0 } "EACCES"
     rfl rfl rfl rfl rfl rfl rfl⟩

/-- C6: the stdout of the result returned by `PHPExecutor.execute` is
exactly the stdout the process-launch step captured, for every exit code
(normalization touches only stderr); in particular a zero exit with empty
raw stderr yields `{stdout := s, stderr := ""}`. -/
theorem C6_stdout_passed_through (cs : Constants) (st : ModuleState) (env : Env)
    (opts : ExecutionOptions) (p : String) (r : SpawnResult)
    (h1 : env.createTempFile (env.uniqueFileName ++ ".php") opts.code = Except.ok p)
    (h2 : env.spawnHelper { command := "docker", args := dockerArgs cs st.PHP_IMAGE_TAG p }
            opts.stdin = Except.ok r) :
    ∃ res : ExecutionResult,
      (PHPExecutor.execute cs st env opts).result = Except.ok res ∧
      res.stdout = r.stdout ∧
      (r.code = 0 → r.stderr = "" → res = { stdout := r.stdout, stderr := "" }) := by
  rw [execute_spawn_ok_eq cs st env opts p r h1 h2]
  refine ⟨_, rfl, rfl, ?_⟩
  intro hc he
  simp [FORCED_DOCKER_EXIT_CODE, hc, he]

/-- C6 (witness). -/
theorem C6_witness :
    envOk.createTempFile (envOk.uniqueFileName ++ ".php") opts0.code =
      Except.ok "/tmp/u123.php" ∧
    envOk.spawnHelper
      { command := "docker", args := dockerArgs cs0 st0.PHP_IMAGE_TAG "/tmp/u123.php" }
      opts0.stdin = Except.ok { stdout := "1", stderr := "", code := 0 } ∧
    (∃ res : ExecutionResult,
      (PHPExecutor.execute cs0 st0 envOk opts0).result = Except.ok res ∧
      res.stdout = "1" ∧
      ((0 : Int) = 0 → "" = "" → res = { stdout := "1", stderr := "" })) :=
  ⟨rfl, rfl,
   C6_stdout_passed_through cs0 st0 envOk opts0 "/tmp/u123.php"
     { stdout := "1", stderr := "", code := 0 } rfl rfl⟩

/-- C7: the file persisted for an execution is named with the freshly
generated unique identifier followed by ".php", holds exactly
`options.code`, and its creation precedes the launch of the isolated
process in the trace of every execution whose write succeeds. -/
theorem C7_file_name_content_order (cs : Constants) (st : ModuleState) (env : Env)
    (opts : ExecutionOptions) (p : String)
    (h1 : env.createTempFile (env.uniqueFileName ++ ".php") opts.code = Except.ok p) :
    ∃ rest, (PHPExecutor.execute cs st env opts).events =
      Event.tempFileCreated (env.uniqueFileName ++ ".php") opts.code p ::
      Event.spawnAttempted "docker" (dockerArgs cs st.PHP_IMAGE_TAG p) opts.stdin ::
      rest := by
  cases h2 : env.spawnHelper { command := "docker", args := dockerArgs cs st.PHP_IMAGE_TAG p }
      opts.stdin with
  | ok r =>
    rw [execute_spawn_ok_eq cs st env opts p r h1 h2]
    exact ⟨_, rfl⟩
  | error e =>
    rw [execute_spawn_error_eq cs st env opts p e h1 h2]
    exact ⟨_, rfl⟩

/-- C7 (witness). -/
theorem C7_witness :
    envOk.createTempFile (envOk.uniqueFileName ++ ".php") opts0.code =
      Except.ok "/tmp/u123.php" ∧
    (∃ rest, (PHPExecutor.execute cs0 st0 envOk opts0).events =
      Event.tempFileCreated (envOk.uniqueFileName ++ ".php") opts0.code "/tmp/u123.php" ::
      Event.spawnAttempted "docker" (dockerArgs cs0 st0.PHP_IMAGE_TAG "/tmp/u123.php")
        opts0.stdin :: rest) :=
  ⟨rfl, C7_file_name_content_order cs0 st0 envOk opts0 "/tmp/u123.php" rfl⟩

/-- C8: when the temp-file write throws, `PHPExecutor.execute` propagates
that error having performed no other observable action — no process is
launched, no cleanup is attempted, the trace is empty. -/
theorem C8_create_failure_propagates_bare (cs : Constants) (st : ModuleState)
    (env : Env) (opts : ExecutionOptions) (e : String)
    (h1 : env.createTempFile (env.uniqueFileName ++ ".php") opts.code = Except.error e) :
    PHPExecutor.execute cs st env opts = { result := Except.error e, events := [] } :=
  execute_create_error_eq cs st env opts e h1

/-- C8 (witness). -/
theorem C8_witness :
    envCreateFails.createTempFile (envCreateFails.uniqueFileName ++ ".php") opts0.code =
      Except.error "ENOSPC disk full" ∧
    PHPExecutor.execute cs0 st0 envCreateFails opts0 =
      { result := Except.error "ENOSPC disk full", events := [] } :=
  ⟨rfl, C8_create_failure_propagates_bare cs0 st0 envCreateFails opts0
     "ENOSPC disk full" rfl⟩

/-- A process environment in which PHP_IMAGE_TAG is unset. -/
def procEnvEmpty : String → Option String := fun _ => none

/-- C9: the image identifier is captured from the process environment at
module initialisation, and the capture performs no runtime check — if the
variable is unset, the module loads with the value `undefined`, no error is
raised, and every execution builds its docker command with `undefined` in
the image position (index 9) while still completing normally. -/
theorem C9_image_tag_unset_no_check (procEnv : String → Option String)
    (cs : Constants) (env : Env) (opts : ExecutionOptions) (p : String)
    (r : SpawnResult)
    (h0 : procEnv "PHP_IMAGE_TAG" = none)
    (h1 : env.createTempFile (env.uniqueFileName ++ ".php") opts.code = Except.ok p)
    (h2 : env.spawnHelper
            { command := "docker",
              args := dockerArgs cs (initModule procEnv).PHP_IMAGE_TAG p }
            opts.stdin = Except.ok r) :
    (initModule procEnv).PHP_IMAGE_TAG = JSVal.undefined ∧
    (∃ res : ExecutionResult,
      (PHPExecutor.execute cs (initModule procEnv) env opts).result = Except.ok res) ∧
    Event.spawnAttempted "docker" (dockerArgs cs JSVal.undefined p) opts.stdin ∈
      (PHPExecutor.execute cs (initModule procEnv) env opts).events ∧
    (dockerArgs cs JSVal.undefined p)[9]? = some JSVal.undefined := by
  have hst : (initModule procEnv).PHP_IMAGE_TAG = JSVal.undefined := by
    simp [initModule, h0, jsOfOption]
  refine ⟨hst, ?_, ?_, rfl⟩
  · rw [execute_spawn_ok_eq cs (initModule procEnv) env opts p r h1 h2]
    exact ⟨_, rfl⟩
  · rw [execute_spawn_ok_eq cs (initModule procEnv) env opts p r h1 h2]
    simp [hst]

/-- C9 (witness). -/
theorem C9_witness :
    procEnvEmpty "PHP_IMAGE_TAG" = none ∧
    envOk.createTempFile (envOk.uniqueFileName ++ ".php") opts0.code =
      Except.ok "/tmp/u123.php" ∧
    envOk.spawnHelper
      { command := "docker",
        args := dockerArgs cs0 (initModule procEnvEmpty).PHP_IMAGE_TAG "/tmp/u123.php" }
      opts0.stdin = Except.ok { stdout := "1", stderr := "", code := 0 } ∧
    ((initModule procEnvEmpty).PHP_IMAGE_TAG = JSVal.undefined ∧
     (∃ res : ExecutionResult,
       (PHPExecutor.execute cs0 (initModule procEnvEmpty) envOk opts0).result =
         Except.ok res) ∧
     Event.spawnAttempted "docker" (dockerArgs cs0 JSVal.undefined "/tmp/u123.php")
       opts0.stdin ∈
       (PHPExecutor.execute cs0 (initModule procEnvEmpty) envOk opts0).events ∧
     (dockerArgs cs0 JSVal.undefined "/tmp/u123.php")[9]? = some JSVal.undefined) :=
  ⟨rfl, rfl, rfl,
   C9_image_tag_unset_no_check procEnvEmpty cs0 envOk opts0 "/tmp/u123.php"
     { stdout := "1", stderr := "", code := 0 } rfl rfl rfl⟩

/-- C10: in the docker invocation of every execution whose temp file was
written at path `p` with content `options.code`, the bind-mount target and
the argument handed to the interpreter are the same fixed path
"/code.php", so the program the isolated process runs is exactly the file
holding `options.code`. -/
theorem C10_mount_target_is_interpreter_arg (cs : Constants) (st : ModuleState)
    (env : Env) (opts : ExecutionOptions) (p : String)
    (h1 : env.createTempFile (env.uniqueFileName ++ ".php") opts.code = Except.ok p) :
    Event.tempFileCreated (env.uniqueFileName ++ ".php") opts.code p ∈
      (PHPExecutor.execute cs st env opts).events ∧
    ∃ path args,
      path = "/code.php" ∧
      Event.spawnAttempted "docker" args opts.stdin ∈
        (PHPExecutor.execute cs st env opts).events ∧
      args[8]? = some (JSVal.str
        ("type=bind,source=" ++ p ++ (",target=" ++ path ++ ",readonly"))) ∧
      args[11]? = some (JSVal.str path) ∧
      args.length = 12 := by
  cases h2 : env.spawnHelper { command := "docker", args := dockerArgs cs st.PHP_IMAGE_TAG p }
      opts.stdin with
  | ok r =>
    rw [execute_spawn_ok_eq cs st env opts p r h1 h2]
    exact ⟨by simp, "/code.php", dockerArgs cs st.PHP_IMAGE_TAG p, rfl, by simp,
           rfl, rfl, rfl⟩
  | error e =>
    rw [execute_spawn_error_eq cs st env opts p e h1 h2]
    exact ⟨by simp, "/code.php", dockerArgs cs st.PHP_IMAGE_TAG p, rfl, by simp,
           rfl, rfl, rfl⟩

/-- C10 (witness). -/
theorem C10_witness :
    envOk.createTempFile (envOk.uniqueFileName ++ ".php") opts0.code =
      Except.ok "/tmp/u123.php" ∧
    (Event.tempFileCreated (envOk.uniqueFileName ++ ".php") opts0.code "/tmp/u123.php" ∈
       (PHPExecutor.execute cs0 st0 envOk opts0).events ∧
     ∃ path args,
       path = "/code.php" ∧
       Event.spawnAttempted "docker" args opts0.stdin ∈
         (PHPExecutor.execute cs0 st0 envOk opts0).events ∧
       args[8]? = some (JSVal.str
         ("type=bind,source=" ++ "/tmp/u123.php" ++ (",target=" ++ path ++ ",readonly"))) ∧
       args[11]? = some (JSVal.str path) ∧
       args.length = 12) :=
  ⟨rfl, C10_mount_target_is_interpreter_arg cs0 st0 envOk opts0 "/tmp/u123.php" rfl⟩
